import Mathlib

/-!
Shallow embedding of the novus-cura photo-culling tool (TypeScript sources in
`src/`), covering the analysis client (`analyzePhoto` and its variants in
`src/services/geminiService.ts`, `src/unnamed/part_000` .. `part_002`), the
image sanitizer (`sanitizeAndCompress` in `src/App.tsx` and variants), the
preview/metadata extraction (`extractMetadata` / `extractData`), the XMP
sidecar generation (`generateXMP`) and the per-photo UI state updates
(`processNext` success update and the `onRate` handler).

JavaScript dynamic values are modelled by the `JValue` inductive; machine
numbers are modelled as `Rat` (integral fields as `Int`); asynchronous model
calls are modelled by an environment `Nat → Except JsError JValue` giving, for
each attempt number, either the parsed JSON reply (success of the whole `try`
body) or the thrown error.
-/

namespace NovusCura

/-- A JavaScript/JSON value. `jnull` models both `null` and `undefined`
(the sources only consult these through `??`, `||`, `typeof`, and
`Array.isArray`, which treat the two alike on the relevant paths). -/
inductive JValue where
  | jnull : JValue
  | jbool : Bool → JValue
  | jnum : Rat → JValue
  | jstr : String → JValue
  | jarr : List JValue → JValue
  | jobj : List (String × JValue) → JValue

namespace JValue

/-- Property access `v[k]`: on an object, the first binding of `k` (absent
properties read as `undefined`, i.e. `jnull`); on non-objects `jnull`. -/
def get (v : JValue) (k : String) : JValue :=
  match v with
  | .jobj fields => (fields.lookup k).getD .jnull
  | _ => .jnull

/-- `typeof v === 'number'`. -/
def isNumber : JValue → Bool
  | .jnum _ => true
  | _ => false

/-- `Array.isArray(v)`. -/
def isArray : JValue → Bool
  | .jarr _ => true
  | _ => false

/-- Whether `v` is an object literal. -/
def isObj : JValue → Bool
  | .jobj _ => true
  | _ => false

/-- Whether `v` is `null`/`undefined` (the left operand test of `??`). -/
def isNullish : JValue → Bool
  | .jnull => true
  | _ => false

/-- JavaScript truthiness (`NaN` is not modelled; `Rat` has no `NaN`). -/
def truthy : JValue → Bool
  | .jnull => false
  | .jbool b => b
  | .jnum q => q != 0
  | .jstr s => s != ""
  | .jarr _ => true
  | .jobj _ => true

end JValue

/-- The nullish-coalescing operator `a ?? b`. -/
def jsCoalesce (a b : JValue) : JValue :=
  if a.isNullish then b else a

/-- The logical-or operator `a || b` on dynamic values. -/
def jsOr (a b : JValue) : JValue :=
  if a.truthy then a else b

/-- Whether `pat` occurs as a contiguous run starting at some suffix of `l`. -/
def jsIncludesAux (pat : List Char) : List Char → Bool
  | [] => pat.isPrefixOf []
  | c :: rest => pat.isPrefixOf (c :: rest) || jsIncludesAux pat rest

/-- `String.prototype.includes(pat)`: substring containment. -/
def jsIncludes (s pat : String) : Bool :=
  jsIncludesAux pat.data s.data

/-- `Math.round`: round half toward positive infinity. -/
def jsRound (q : Rat) : Int :=
  ⌊q + 1/2⌋

/-- The `||` operator restricted to numbers: `x || d` (`0` is falsy). -/
def jsOrInt (x d : Int) : Int :=
  if x = 0 then d else x

/-- The error value caught by a `catch (error)` clause: HTTP-ish status (if
the thrown object carried one) and message string. -/
structure JsError where
  status : Option Nat
  message : String
  deriving DecidableEq

/-- The `PhotoAnalysis` object as actually produced at runtime by the
service layer: TypeScript declares numeric/string fields, but the spread
variants can place arbitrary parsed JSON in each field, so each field is a
dynamic `JValue`. -/
structure DynAnalysis where
  rating : JValue
  exposure : JValue
  temp : JValue
  highlights : JValue
  shadows : JValue
  whites : JValue
  blacks : JValue
  contrast : JValue
  reason : JValue
  keywords : JValue
  caption : JValue

/-- Retry-shape of an `analyzePhoto` variant: maximum attempt count, which
caught errors are retried, the backoff delay before the retry of a given
attempt number (ms, `Rat` to carry jitter), the result built from a parsed
reply, and the sentinel built from the final error. -/
structure ClientConfig where
  maxAttempts : Nat
  retryPred : JsError → Bool
  delay : Nat → Rat
  onSuccess : JValue → DynAnalysis
  sentinel : JsError → DynAnalysis

/-- One run of the shared `try`/`catch`-with-recursive-retry shape of
`analyzePhoto`: returns the produced `PhotoAnalysis`, the list of backoff
waits performed, and the number of attempts made. `env n` is the outcome of
the whole `try` body on attempt `n`. `fuel` only drives structural
recursion; `runClient` supplies `maxAttempts - attempt`, which the
invariant `attempt < maxAttempts → fuel > 0` keeps sufficient, so the
fuel-exhaustion arm is unreachable from `runClient`. -/
def runClientGo (cfg : ClientConfig) (env : Nat → Except JsError JValue) :
    Nat → Nat → DynAnalysis × List Rat × Nat
  | fuel, attempt =>
    match env attempt with
    | .ok v => (cfg.onSuccess v, [], 1)
    | .error e =>
      if cfg.retryPred e && decide (attempt < cfg.maxAttempts) then
        match fuel with
        | 0 => (cfg.sentinel e, [], 1)
        | fuel' + 1 =>
          let rest := runClientGo cfg env fuel' (attempt + 1)
          (rest.1, cfg.delay attempt :: rest.2.1, rest.2.2 + 1)
      else
        (cfg.sentinel e, [], 1)

/-- Entry point of a retrying `analyzePhoto` variant, starting at the given
attempt number (the TypeScript default argument is `attempt = 1`). -/
def runClient (cfg : ClientConfig) (env : Nat → Except JsError JValue)
    (attempt : Nat := 1) : DynAnalysis × List Rat × Nat :=
  runClientGo cfg env (cfg.maxAttempts - attempt) attempt

/-! ### Variant “main”: `src/services/geminiService.ts` lines 33–97
`MAX_ATTEMPTS = 3`; the missing-key check throws *inside* the `try`; the
`catch` retries unconditionally while `attempt < MAX_ATTEMPTS`, waiting
`2000 * attempt` ms; on exhaustion it returns the `API_FAIL` sentinel. -/

/-- Field-by-field result of the main variant (lines 68–80): every field is
defaulted with `??`, so only `null`/`undefined` is replaced. -/
def mkAnalysisMain (result : JValue) : DynAnalysis where
  rating := jsCoalesce (result.get "rating") (.jnum 0)
  exposure := jsCoalesce (result.get "exposure") (.jnum 0)
  temp := jsCoalesce (result.get "temp") (.jnum 0)
  highlights := jsCoalesce (result.get "highlights") (.jnum 0)
  shadows := jsCoalesce (result.get "shadows") (.jnum 0)
  whites := jsCoalesce (result.get "whites") (.jnum 0)
  blacks := jsCoalesce (result.get "blacks") (.jnum 0)
  contrast := jsCoalesce (result.get "contrast") (.jnum 0)
  reason := jsCoalesce (result.get "reason") (.jstr "Processed")
  keywords := jsCoalesce (result.get "keywords") (.jarr [])
  caption := jsCoalesce (result.get "caption") (.jstr "")

/-- The sentinel returned by the main variant on exhaustion (lines 91–95). -/
def sentinelMain : DynAnalysis where
  rating := .jnum 0
  exposure := .jnum 0
  temp := .jnum 0
  highlights := .jnum 0
  shadows := .jnum 0
  whites := .jnum 0
  blacks := .jnum 0
  contrast := .jnum 0
  reason := .jstr "API_FAIL"
  keywords := .jarr []
  caption := .jstr "Analysis Failed"

def cfgMain : ClientConfig where
  maxAttempts := 3
  retryPred := fun _ => true
  delay := fun attempt => 2000 * attempt
  onSuccess := mkAnalysisMain
  sentinel := fun _ => sentinelMain

/-- The error thrown by `if (!apiKey) throw new Error(...)` in the main
variant (line 42). -/
def missingKeyErrorMain : JsError :=
  { status := none, message := "Missing API Key. Check Vercel Settings." }

/-- Environment of a variant whose credential check sits inside the `try`:
whether the key is configured, plus the outcome of the `try` body on each
attempt when the key is present. -/
structure EnvMain where
  apiKeyPresent : Bool
  call : Nat → Except JsError JValue

/-- Outcome of the main variant's `try` body on attempt `n`: with the key
absent, the thrown missing-key error; otherwise the modelled call. -/
def attemptMain (env : EnvMain) (n : Nat) : Except JsError JValue :=
  if env.apiKeyPresent then env.call n else .error missingKeyErrorMain

/-- `analyzePhoto` of `src/services/geminiService.ts` lines 33–97, called
from its entry point (`attempt = 1`): produced analysis, backoff waits,
attempts made. -/
def analyzePhotoMain (env : EnvMain) : DynAnalysis × List Rat × Nat :=
  runClient cfgMain (attemptMain env)

/-! ### Variant “p1”: `src/unnamed/part_001`
`MAX_ATTEMPTS = 3`; retries (`2000 * attempt` ms wait) only on
`status === 429 || status === 503 || message.includes('429')`; success path
is the spread `{...result, contrast: result.contrast ?? 0}`. -/

/-- Success path shared by the spread variants (`part_000`, `part_001`, and
`geminiService.ts` lines 260–263): the parsed object's fields pass through
unchanged except `contrast`, defaulted with `??`. -/
def mkAnalysisSpread (result : JValue) : DynAnalysis where
  rating := result.get "rating"
  exposure := result.get "exposure"
  temp := result.get "temp"
  highlights := result.get "highlights"
  shadows := result.get "shadows"
  whites := result.get "whites"
  blacks := result.get "blacks"
  contrast := jsCoalesce (result.get "contrast") (.jnum 0)
  reason := result.get "reason"
  keywords := result.get "keywords"
  caption := result.get "caption"

/-- `part_001` lines 71–72: which caught errors are retried. -/
def isRetryableP1 (e : JsError) : Bool :=
  e.status == some 429 || e.status == some 503 || jsIncludes e.message "429"

/-- The sentinel returned by `part_001` (lines 79–83). -/
def sentinelP1 : DynAnalysis :=
  sentinelMain

def cfgP1 : ClientConfig where
  maxAttempts := 3
  retryPred := isRetryableP1
  delay := fun attempt => 2000 * attempt
  onSuccess := mkAnalysisSpread
  sentinel := fun _ => sentinelP1

/-- The error thrown by `if (!apiKey) throw new Error("Missing API Key")`
in `part_001` (line 37). -/
def missingKeyErrorP1 : JsError :=
  { status := none, message := "Missing API Key" }

def attemptP1 (env : EnvMain) (n : Nat) : Except JsError JValue :=
  if env.apiKeyPresent then env.call n else .error missingKeyErrorP1

/-- `analyzePhoto` of `src/unnamed/part_001`, from its entry point. -/
def analyzePhotoP1 (env : EnvMain) : DynAnalysis × List Rat × Nat :=
  runClient cfgP1 (attemptP1 env)

/-! ### Variant “v3”: `src/services/geminiService.ts` lines 238–293
`MAX_ATTEMPTS = 5`; retries only rate-limit errors, waiting
`Math.pow(2, attempt) * 1000 + Math.random() * 1000` ms; no key check (the
key is passed straight to the client and its absence surfaces as a call
error). -/

/-- `isRateLimit` of lines 265–268. -/
def isRateLimitV3 (e : JsError) : Bool :=
  e.status == some 429 || jsIncludes e.message "429" ||
    jsIncludes e.message "exhausted" || jsIncludes e.message "quota"

/-- The sentinel returned by the 5-attempt variant (lines 279–291). -/
def sentinelV3 : DynAnalysis where
  rating := .jnum 0
  exposure := .jnum 0
  temp := .jnum 0
  highlights := .jnum 0
  shadows := .jnum 0
  whites := .jnum 0
  blacks := .jnum 0
  contrast := .jnum 0
  reason := .jstr "SYSTEM_FAILURE"
  keywords := .jarr []
  caption := .jstr "Analysis suspended due to system limits."

/-- `jitter n` models the `Math.random() * 1000` sample drawn before the
retry of attempt `n`. -/
def cfgV3 (jitter : Nat → Rat) : ClientConfig where
  maxAttempts := 5
  retryPred := isRateLimitV3
  delay := fun attempt => 2 ^ attempt * 1000 + jitter attempt
  onSuccess := mkAnalysisSpread
  sentinel := fun _ => sentinelV3

/-- `analyzePhoto` of `src/services/geminiService.ts` lines 238–293, from
its entry point. -/
def analyzePhotoV3 (jitter : Nat → Rat) (env : Nat → Except JsError JValue) :
    DynAnalysis × List Rat × Nat :=
  runClient (cfgV3 jitter) env

/-! ### Variant “robust”: `src/services/geminiService.ts` lines 108–194 and
`src/unnamed/part_002` — no retries; the result builder type-checks the
rating and keywords fields. -/

/-- Result builder of the robust variants (lines 164–176 of
`geminiService.ts`; `part_002` lines 64–76 is identical). -/
def mkAnalysisRobust (data : JValue) : DynAnalysis where
  rating := if (data.get "rating").isNumber then data.get "rating" else .jnum 0
  exposure := jsOr (data.get "exposure") (.jnum 0)
  temp := jsOr (data.get "temp") (.jnum 0)
  highlights := jsOr (data.get "highlights") (.jnum 0)
  shadows := jsOr (data.get "shadows") (.jnum 0)
  whites := jsOr (data.get "whites") (.jnum 0)
  blacks := jsOr (data.get "blacks") (.jnum 0)
  contrast := jsOr (data.get "contrast") (.jnum 0)
  reason := jsOr (data.get "reason") (.jstr "Processed")
  keywords := if (data.get "keywords").isArray then data.get "keywords" else .jarr []
  caption := jsOr (data.get "caption") (.jstr "")

/-! ### Variant “p0”: `src/unnamed/part_000` — the credential is checked
*before* the `try`, returning a sentinel at once; no retries; the `catch`
sentinel's reason depends on the error message. -/

/-- `part_000` lines 71–75: the `failReason` cascade of `if` statements. -/
def mkFailReasonP0 (e : JsError) : String :=
  let r := "AI Analysis Failed"
  let r := if jsIncludes e.message "403" then "Invalid API Key" else r
  let r := if jsIncludes e.message "404" then "Model Not Found" else r
  let r := if jsIncludes e.message "429" then "Quota Exceeded" else r
  r

/-- The `catch` sentinel of `part_000` (lines 77–81). -/
def sentinelP0 (e : JsError) : DynAnalysis where
  rating := .jnum 0
  exposure := .jnum 0
  temp := .jnum 0
  highlights := .jnum 0
  shadows := .jnum 0
  whites := .jnum 0
  blacks := .jnum 0
  contrast := .jnum 0
  reason := .jstr (mkFailReasonP0 e)
  keywords := .jarr []
  caption := .jstr ""

/-- The early-return sentinel of `part_000` when the key is missing
(lines 31–38). -/
def missingKeySentinelP0 : DynAnalysis where
  rating := .jnum 0
  exposure := .jnum 0
  temp := .jnum 0
  highlights := .jnum 0
  shadows := .jnum 0
  whites := .jnum 0
  blacks := .jnum 0
  contrast := .jnum 0
  reason := .jstr "MISSING API KEY (Check Vercel Settings)"
  keywords := .jarr []
  caption := .jstr ""

def cfgP0 : ClientConfig where
  maxAttempts := 1
  retryPred := fun _ => false
  delay := fun _ => 0
  onSuccess := mkAnalysisSpread
  sentinel := sentinelP0

/-- `analyzePhoto` of `src/unnamed/part_000`: the key check precedes the
`try`, so a missing key makes zero API attempts and no waits. -/
def analyzePhotoP0 (env : EnvMain) : DynAnalysis × List Rat × Nat :=
  if env.apiKeyPresent then runClient cfgP0 env.call else (missingKeySentinelP0, [], 0)

/-! ### Sanitizer: `sanitizeAndCompress`
Only the output canvas dimensions are modelled (the pixel contents of the
canvas draw are irrelevant to the claims). Dimensions are `Rat` because the
JS scale factors are fractional. -/

/-- Canvas dimensions produced by `sanitizeAndCompress` of `src/App.tsx`
lines 14–93: swap width/height when `orientation > 4`, scale by
`Math.min(1024/width, 1024/height, 1)`; for orientations other than 1 and 6
the fallback branch (lines 78–81) re-assigns the canvas to the *unswapped*
dimensions times the same scale. -/
def sanitizeDimsMain (w h : Rat) (orientation : Int) : Rat × Rat :=
  let p := if orientation > 4 then (h, w) else (w, h)
  let scale := min (min (1024 / p.1) (1024 / p.2)) 1
  let finalWidth := p.1 * scale
  let finalHeight := p.2 * scale
  if orientation = 1 then (finalWidth, finalHeight)
  else if orientation = 6 then (finalWidth, finalHeight)
  else (w * scale, h * scale)

/-- Canvas dimensions produced by the `sanitizeAndCompress` of `src/App.tsx`
lines 404–429: `scale = 1024 / Math.max(img.width, img.height)` with no cap
at 1 (small images are scaled *up* to a 1024 long edge). -/
def sanitizeDimsV21 (w h : Rat) : Rat × Rat :=
  let scale := 1024 / max w h
  (w * scale, h * scale)

/-- Canvas dimensions produced by the `sanitizeAndCompress` of
`src/unnamed/part_003` lines 15–64: shrink only the long edge to 1024 when
it exceeds 1024, scaling the other edge proportionally. -/
def sanitizeDimsP3 (w h : Rat) : Rat × Rat :=
  if w > h then
    if w > 1024 then (1024, h * (1024 / w)) else (w, h)
  else
    if h > 1024 then (w * (1024 / h), 1024) else (w, h)

/-- The long edge of an output image. -/
def longEdge (d : Rat × Rat) : Rat :=
  max d.1 d.2

/-! ### Extraction: `extractMetadata` (`src/App.tsx` lines 96–146) and
`extractData` (`src/unnamed/part_003` lines 105–165). -/

/-- The fields of the `exifr.parse` result that the sources consult.
`DateTimeOriginal` is carried as the epoch value `new Date(...).getTime()`
would produce. -/
structure ExifData where
  Orientation : Option Int
  ISO : Option Int
  FNumber : Option Rat
  ExposureTime : Option Rat
  DateTimeOriginal : Option Int

/-- The `PhotoMetadata` record (`iso`/`aperture`/`shutter` strings plus a
timestamp). -/
structure PhotoMetadata where
  iso : String
  aperture : String
  shutter : String
  timestamp : Int
  deriving DecidableEq

/-- Environment of one extraction run: outcomes of the three `exifr` calls
(`.error` models a rejected promise, `.ok none` a resolved `undefined`),
the bytes of the sliced file head used by the manual scan, and `Date.now()`. -/
structure ExtractEnv where
  parse : Except Unit ExifData
  preview : Except Unit (Option (List Nat))
  thumbnail : Except Unit (Option (List Nat))
  fileHead : List Nat
  now : Int

/-- The placeholder metadata initialised before parsing (`src/App.tsx`
line 99) and returned when `exifr.parse` throws. -/
def placeholderMeta (now : Int) : PhotoMetadata :=
  { iso := "-", aperture := "-", shutter := "-", timestamp := now }

/-- Metadata built from a successful `exifr.parse` (`src/App.tsx` lines
105–110): each field falls back to a per-field default when absent or falsy
(`?.toString() || '100'`, ternaries on truthiness). -/
def metaOfExif (exif : ExifData) (now : Int) : PhotoMetadata where
  iso := match exif.ISO with
    | some n => if toString n = "" then "100" else toString n
    | none => "100"
  aperture := match exif.FNumber with
    | some f => if f = 0 then "f/2.8" else "f/" ++ toString f
    | none => "f/2.8"
  shutter := match exif.ExposureTime with
    | some t => if t = 0 then "1/250" else "1/" ++ toString (jsRound (1 / t))
    | none => "1/250"
  timestamp := match exif.DateTimeOriginal with
    | some d => d
    | none => now

/-- The manual JPEG start-of-image scan (`src/App.tsx` lines 126–130 and
`part_003` lines 141–150): the first index `i` with bytes `FF D8 FF`.
Reading `getUint8(i+2)` past the buffer end throws a `RangeError`, which the
surrounding `catch` swallows, so that case yields no start index. `fuel`
drives structural recursion; `findJpegStart` passes `bytes.length`, which
dominates the loop bound `i < bytes.length - 1`. -/
def findJpegStartGo (bytes : List Nat) : Nat → Nat → Option Nat
  | 0, _ => none
  | fuel + 1, i =>
    if i < bytes.length - 1 then
      if bytes.getD i 0 = 0xFF ∧ bytes.getD (i + 1) 0 = 0xD8 then
        if i + 2 < bytes.length then
          if bytes.getD (i + 2) 0 = 0xFF then some i
          else findJpegStartGo bytes fuel (i + 1)
        else none
      else findJpegStartGo bytes fuel (i + 1)
    else none

def findJpegStart (bytes : List Nat) : Option Nat :=
  findJpegStartGo bytes bytes.length 0

/-- Result record of `extractMetadata`. The `url` stands for the object URL
`URL.createObjectURL(blob)` and carries the bytes it points at. -/
structure ExtractResult where
  url : Option (List Nat)
  meta : PhotoMetadata
  blob : Option (List Nat)
  orientation : Int

/-- The preview-byte waterfall shared by `extractMetadata` and
`extractData`: structured preview, then thumbnail, then the manual scan
(which grabs 8 MB from the found marker). -/
def previewWaterfall (env : ExtractEnv) : Option (List Nat) :=
  let thumb1 : Option (List Nat) :=
    match env.preview with
    | .ok b => b
    | .error _ => none
  let thumb2 : Option (List Nat) :=
    match thumb1 with
    | some b => some b
    | none =>
      match env.thumbnail with
      | .ok b => b
      | .error _ => none
  match thumb2 with
  | some b => some b
  | none =>
    (findJpegStart env.fileHead).map
      (fun start => (env.fileHead.drop start).take (8 * 1024 * 1024))

/-- `extractMetadata` of `src/App.tsx` lines 96–146. The inner `catch`
blocks make every step total, so the outer `catch` (lines 143–145) is
unreachable and the function always returns normally. -/
def extractMetadata (env : ExtractEnv) : ExtractResult :=
  let meta : PhotoMetadata :=
    match env.parse with
    | .ok exif => metaOfExif exif env.now
    | .error _ => placeholderMeta env.now
  let orientation : Int :=
    match env.parse with
    | .ok exif => jsOrInt (exif.Orientation.getD 0) 1
    | .error _ => 1
  match previewWaterfall env with
  | some buf => { url := some buf, meta := meta, blob := some buf, orientation := orientation }
  | none => { url := none, meta := meta, blob := none, orientation := 1 }

/-- `extractData` of `src/unnamed/part_003` lines 105–165 (no orientation;
returns the thumbnail blob and metadata only). -/
def extractDataP3 (env : ExtractEnv) : Option (List Nat) × PhotoMetadata :=
  let meta : PhotoMetadata :=
    match env.parse with
    | .ok exif => metaOfExif exif env.now
    | .error _ => placeholderMeta env.now
  (previewWaterfall env, meta)

/-- The hypothesis “no embedded preview can be decoded”: the structured
preview and thumbnail reads fail or come back empty, and the manual marker
scan finds nothing. -/
def allPreviewStrategiesFail (env : ExtractEnv) : Prop :=
  (env.preview = .error () ∨ env.preview = .ok none) ∧
    (env.thumbnail = .error () ∨ env.thumbnail = .ok none) ∧
    findJpegStart env.fileHead = none

/-! ### App state: photo records, the completion update, `onRate`, and XMP
generation (`src/App.tsx`). At this layer the analysis fields carry their
declared TypeScript types (`rating : number` as `Int`, tonal offsets as
`Rat`): the UI and XMP code path consumes them arithmetically. -/

inductive PhotoStatus where
  | PENDING | PROCESSING | COMPRESSING | ANALYZING | COMPLETED | FAILED
  deriving DecidableEq

/-- `PhotoAnalysis` as consumed by the App layer. -/
structure PhotoAnalysis where
  rating : Int
  exposure : Rat
  temp : Rat
  highlights : Rat
  shadows : Rat
  whites : Rat
  blacks : Rat
  contrast : Rat
  reason : String
  keywords : List String
  caption : String
  deriving DecidableEq

/-- `PhotoMission`: the per-photo record in project state. -/
structure PhotoMission where
  id : String
  name : String
  previewUrl : Option String
  status : PhotoStatus
  metadata : PhotoMetadata
  selected : Bool
  analysis : Option PhotoAnalysis
  deriving DecidableEq

/-- The success update applied by `processNext` step 4 (`src/App.tsx`
lines 274–283; `part_003` lines 345–353 and `part_004` lines 395–403 are
identical in these fields): on the matching photo, status `COMPLETED`, the
analysis stored, the preview replaced, and
`selected: (analysis.rating || 0) >= 3`. -/
def completePhoto (id : String) (analysis : PhotoAnalysis) (rotatedUrl : String)
    (p : PhotoMission) : PhotoMission :=
  if p.id = id then
    { p with
      status := .COMPLETED
      analysis := some analysis
      previewUrl := some rotatedUrl
      selected := decide (jsOrInt analysis.rating 0 ≥ 3) }
  else p

/-- The `onRate` handler (`src/App.tsx` line 373; `part_003` line 453 and
`part_004` line 519 are identical): only a photo with the matching id *and*
an existing analysis is touched; it gets `selected: rating >= 3` and the
overridden `analysis.rating`. -/
def ratePhoto (id : String) (rating : Int) (p : PhotoMission) : PhotoMission :=
  if p.id = id ∧ p.analysis.isSome then
    { p with
      selected := decide (rating ≥ 3)
      analysis := p.analysis.map (fun a => { a with rating := rating }) }
  else p

/-- The list-level `onRate` update (`setActiveProject` maps `ratePhoto` over
`prev.photos`). -/
def onRatePhotos (photos : List PhotoMission) (id : String) (rating : Int) :
    List PhotoMission :=
  photos.map (ratePhoto id rating)

/-- The rating the UI displays for a photo:
`photo.analysis?.rating || 0` (`src/App.tsx` line 220). -/
def displayedRating (p : PhotoMission) : Int :=
  match p.analysis with
  | some a => jsOrInt a.rating 0
  | none => 0

/-- `JSZip`-bound export set of `handleExportXMP` (`src/App.tsx` line 330):
the completed photos. -/
def exportedPhotos (photos : List PhotoMission) : List PhotoMission :=
  photos.filter (fun p => p.status = .COMPLETED)

/-- `Number.prototype.toFixed(2)` on a rational: two decimal digits,
rounding to nearest (no claim inspects this rendering). -/
def toFixed2 (q : Rat) : String :=
  let n := jsRound (q * 100)
  let sign := if n < 0 then "-" else ""
  let m := n.natAbs
  let frac := m % 100
  sign ++ toString (m / 100) ++ "." ++
    (if frac < 10 then "0" ++ toString frac else toString frac)

/-- The attribute/value pairs interpolated into the sidecar by `generateXMP`
(`src/App.tsx` lines 148–151), in template order. The destructuring
`const { exposure = 0, temp = 0, rating = 0, ... } = photo.analysis || {}`
defaults every field to 0 when the analysis is absent. -/
def xmpAttributes (photo : PhotoMission) : List (String × String) :=
  let a := photo.analysis
  let exposure : Rat := match a with | some x => x.exposure | none => 0
  let temp : Rat := match a with | some x => x.temp | none => 0
  let rating : Int := match a with | some x => x.rating | none => 0
  let highlights : Rat := match a with | some x => x.highlights | none => 0
  let shadows : Rat := match a with | some x => x.shadows | none => 0
  let whites : Rat := match a with | some x => x.whites | none => 0
  let blacks : Rat := match a with | some x => x.blacks | none => 0
  let contrast : Rat := match a with | some x => x.contrast | none => 0
  [("xmp:Rating", toString rating),
   ("crs:Exposure2012", toFixed2 exposure),
   ("crs:Temperature", toString (jsRound (temp * 50 + 5000))),
   ("crs:Highlights2012", toString (jsRound highlights)),
   ("crs:Shadows2012", toString (jsRound shadows)),
   ("crs:Whites2012", toString (jsRound whites)),
   ("crs:Blacks2012", toString (jsRound blacks)),
   ("crs:Contrast2012", toString (jsRound contrast)),
   ("crs:HasSettings", "True")]

/-- The sidecar text of `generateXMP` (`src/App.tsx` lines 148–151): the
fixed XMP envelope around the interpolated attributes. -/
def generateXMP (photo : PhotoMission) : String :=
  "<?xpacket begin=\"?\" id=\"W5M0MpCehiHzreSzNTczkc9d\"?>" ++
    "<x:xmpmeta xmlns:x=\"adobe:ns:meta/\" x:xmptk=\"Adobe XMP Core 5.6-c140\">" ++
    "<rdf:RDF xmlns:rdf=\"http://www.w3.org/1999/02/22-rdf-syntax-ns#\">" ++
    "<rdf:Description rdf:about=\"\" xmlns:xmp=\"http://ns.adobe.com/xap/1.0/\"" ++
    " xmlns:crs=\"http://ns.adobe.com/camera-raw-settings/1.0/\"" ++
    ((xmpAttributes photo).foldl
      (fun acc kv => acc ++ " " ++ kv.1 ++ "=\"" ++ kv.2 ++ "\"") "") ++
    "/></rdf:RDF></x:xmpmeta><?xpacket end=\"w\"?>"

/-- The `temp` value `generateXMP` destructures for a photo (0 when the
analysis is absent). -/
def tempOf (p : PhotoMission) : Rat :=
  match p.analysis with
  | some a => a.temp
  | none => 0

/-! ### Concrete inputs used by witnesses and counterexamples -/

/-- An environment whose every attempt fails with a rate-limit error
(retryable under every variant's retry predicate). -/
def envRateLimited : EnvMain where
  apiKeyPresent := true
  call := fun _ => Except.error { status := some 429, message := "429 quota exhausted" }

/-- An environment with the API credential absent. -/
def envNoKey : EnvMain where
  apiKeyPresent := false
  call := fun _ => Except.error { status := none, message := "" }

/-- An environment whose call succeeds with a parsed reply whose `rating`
field is the string `"five"`. -/
def envNonNumericRating : EnvMain where
  apiKeyPresent := true
  call := fun _ => Except.ok (JValue.jobj [("rating", JValue.jstr "five")])

/-- A sample analysis result. -/
def sampleAnalysis : PhotoAnalysis where
  rating := 4
  exposure := 0
  temp := 0
  highlights := 0
  shadows := 0
  whites := 0
  blacks := 0
  contrast := 0
  reason := "Sharp hero shot"
  keywords := ["bride"]
  caption := "Portrait"

/-- A completed photo carrying `sampleAnalysis`. -/
def samplePhoto : PhotoMission where
  id := "abc123"
  name := "DSC_0001.NEF"
  previewUrl := some "blob:1"
  status := .COMPLETED
  metadata := { iso := "100", aperture := "f/2.8", shutter := "1/250", timestamp := 0 }
  selected := true
  analysis := some sampleAnalysis

/-- A pending photo with no analysis. -/
def pendingPhoto : PhotoMission where
  id := "zzz999"
  name := "DSC_0002.NEF"
  previewUrl := none
  status := .PENDING
  metadata := { iso := "-", aperture := "-", shutter := "-", timestamp := 0 }
  selected := false
  analysis := none

/-- An extraction environment in which metadata parsing throws and every
preview strategy fails (the file head ends right after an `FF D8` pair, so
the manual scan's `getUint8(i+2)` read throws). -/
def envExtractFail : ExtractEnv where
  parse := .error ()
  preview := .error ()
  thumbnail := .ok none
  fileHead := [0xFF, 0xD8]
  now := 1700000000000

/-! ### Lemmas about the retry loop -/

/-- Every run makes at least one attempt. -/
theorem runClientGo_attempts_pos (cfg : ClientConfig)
    (env : Nat → Except JsError JValue) (fuel attempt : Nat) :
    1 ≤ (runClientGo cfg env fuel attempt).2.2 := by
  cases fuel with
  | zero =>
    unfold runClientGo
    cases h : env attempt with
    | ok v => exact Nat.le_refl 1
    | error e =>
      simp only [h]
      split
      · exact Nat.le_refl 1
      · exact Nat.le_refl 1
  | succ n =>
    unfold runClientGo
    cases h : env attempt with
    | ok v => exact Nat.le_refl 1
    | error e =>
      simp only [h]
      split
      · exact Nat.le_add_left 1 _
      · exact Nat.le_refl 1

/-- The attempt count is bounded by `fuel + 1`. -/
theorem runClientGo_attempts_le (cfg : ClientConfig)
    (env : Nat → Except JsError JValue) :
    ∀ fuel attempt, (runClientGo cfg env fuel attempt).2.2 ≤ fuel + 1 := by
  intro fuel
  induction fuel with
  | zero =>
    intro attempt
    unfold runClientGo
    cases h : env attempt with
    | ok v => exact Nat.le_refl 1
    | error e =>
      simp only [h]
      split
      · exact Nat.le_refl 1
      · exact Nat.le_refl 1
  | succ n ih =>
    intro attempt
    unfold runClientGo
    cases h : env attempt with
    | ok v => exact Nat.le_add_left 1 (n + 1)
    | error e =>
      simp only [h]
      split
      · exact Nat.succ_le_succ (ih (attempt + 1))
      · exact Nat.le_add_left 1 (n + 1)

/-- When the sentinel is a constant and every attempt errors, the run
produces that sentinel. -/
theorem runClientGo_sentinel_of_errors (cfg : ClientConfig) (s0 : DynAnalysis)
    (hs : ∀ e, cfg.sentinel e = s0) (env : Nat → Except JsError JValue)
    (henv : ∀ n, ∃ e, env n = .error e) :
    ∀ fuel attempt, (runClientGo cfg env fuel attempt).1 = s0 := by
  intro fuel
  induction fuel with
  | zero =>
    intro attempt
    obtain ⟨e, he⟩ := henv attempt
    unfold runClientGo
    simp only [he]
    split
    · exact hs e
    · exact hs e
  | succ n ih =>
    intro attempt
    obtain ⟨e, he⟩ := henv attempt
    unfold runClientGo
    simp only [he]
    split
    · exact ih (attempt + 1)
    · exact hs e

/-- The waits performed by a run are exactly the configured delays of the
attempts that triggered a retry: `delay attempt, delay (attempt+1), …`. -/
theorem runClientGo_waits_eq (cfg : ClientConfig)
    (env : Nat → Except JsError JValue) :
    ∀ fuel attempt,
      (runClientGo cfg env fuel attempt).2.1 =
        (List.range ((runClientGo cfg env fuel attempt).2.2 - 1)).map
          (fun i => cfg.delay (attempt + i)) := by
  intro fuel
  induction fuel with
  | zero =>
    intro attempt
    unfold runClientGo
    cases h : env attempt with
    | ok v => simp
    | error e =>
      simp only [h]
      split
      · simp
      · simp
  | succ n ih =>
    intro attempt
    unfold runClientGo
    cases h : env attempt with
    | ok v => simp
    | error e =>
      simp only [h]
      split
      · obtain ⟨k, hk⟩ : ∃ k, (runClientGo cfg env n (attempt + 1)).2.2 = k + 1 :=
          ⟨(runClientGo cfg env n (attempt + 1)).2.2 - 1, by
            have := runClientGo_attempts_pos cfg env n (attempt + 1); omega⟩
        have ihw := ih (attempt + 1)
        rw [hk] at ihw
        simp only [Nat.add_sub_cancel] at ihw
        show cfg.delay attempt :: (runClientGo cfg env n (attempt + 1)).2.1 =
          (List.range ((runClientGo cfg env n (attempt + 1)).2.2 + 1 - 1)).map
            (fun i => cfg.delay (attempt + i))
        rw [ihw, hk]
        simp only [Nat.add_sub_cancel, List.range_succ_eq_map, List.map_cons,
          List.map_map]
        congr 1
        apply List.map_congr_left
        intro i _
        have hadd : attempt + 1 + i = attempt + (i + 1) := by omega
        simp [Function.comp, hadd]
      · simp

/-- At or beyond the configured maximum attempt number, no retry happens:
exactly one attempt is made. -/
theorem runClientGo_no_retry_at_cap (cfg : ClientConfig)
    (env : Nat → Except JsError JValue) (fuel a : Nat)
    (ha : cfg.maxAttempts ≤ a) :
    (runClientGo cfg env fuel a).2.2 = 1 := by
  have hlt : decide (a < cfg.maxAttempts) = false :=
    decide_eq_false_iff_not.mpr (Nat.not_lt.mpr ha)
  cases fuel with
  | zero =>
    unfold runClientGo
    cases h : env a with
    | ok v => rfl
    | error e => simp [h, hlt]
  | succ n =>
    unfold runClientGo
    cases h : env a with
    | ok v => rfl
    | error e => simp [h, hlt]

/-- The `jsOrInt x 0` comparison used for `selected` agrees with comparing
`x` itself: `(x || 0) >= 3 ↔ x >= 3`. -/
theorem jsOrInt_zero_ge_three (x : Int) :
    decide (jsOrInt x 0 ≥ 3) = decide (x ≥ 3) := by
  unfold jsOrInt
  split
  · next h => subst h; rfl
  · rfl

/-! ### Claims -/

/-- C1: for every environment in which the model call fails on every
permitted attempt, both cited `analyzePhoto` variants
(`geminiService.ts` lines 33–97 and `part_001`) resolve to the sentinel
failure object — rating 0, all numeric adjustment fields 0, empty keyword
list, and the fixed sentinel reason string `"API_FAIL"` — rather than
propagating the error (the embedding is a total function, so no run
rejects or throws). -/
theorem claim_C1_sentinel_on_exhaustion (envM envP : EnvMain)
    (hM : ∀ n, ∃ e, attemptMain envM n = .error e)
    (hP : ∀ n, ∃ e, attemptP1 envP n = .error e) :
    (analyzePhotoMain envM).1 = sentinelMain ∧
    (analyzePhotoP1 envP).1 = sentinelP1 ∧
    sentinelP1 = sentinelMain ∧
    sentinelMain.rating = .jnum 0 ∧
    sentinelMain.exposure = .jnum 0 ∧
    sentinelMain.temp = .jnum 0 ∧
    sentinelMain.highlights = .jnum 0 ∧
    sentinelMain.shadows = .jnum 0 ∧
    sentinelMain.whites = .jnum 0 ∧
    sentinelMain.blacks = .jnum 0 ∧
    sentinelMain.contrast = .jnum 0 ∧
    sentinelMain.keywords = .jarr [] ∧
    sentinelMain.reason = .jstr "API_FAIL" := by
  refine ⟨?_, ?_, rfl, rfl, rfl, rfl, rfl, rfl, rfl, rfl, rfl, rfl, rfl⟩
  · exact runClientGo_sentinel_of_errors cfgMain sentinelMain (fun _ => rfl)
      (attemptMain envM) hM _ _
  · exact runClientGo_sentinel_of_errors cfgP1 sentinelP1 (fun _ => rfl)
      (attemptP1 envP) hP _ _

/-- Witness for C1 at the concrete all-failing environment. -/
theorem claim_C1_sentinel_on_exhaustion_witness :
    (analyzePhotoMain envRateLimited).1 = sentinelMain ∧
    (analyzePhotoP1 envRateLimited).1 = sentinelP1 ∧
    sentinelP1 = sentinelMain ∧
    sentinelMain.rating = .jnum 0 ∧
    sentinelMain.exposure = .jnum 0 ∧
    sentinelMain.temp = .jnum 0 ∧
    sentinelMain.highlights = .jnum 0 ∧
    sentinelMain.shadows = .jnum 0 ∧
    sentinelMain.whites = .jnum 0 ∧
    sentinelMain.blacks = .jnum 0 ∧
    sentinelMain.contrast = .jnum 0 ∧
    sentinelMain.keywords = .jarr [] ∧
    sentinelMain.reason = .jstr "API_FAIL" :=
  claim_C1_sentinel_on_exhaustion envRateLimited envRateLimited
    (fun _ => ⟨_, rfl⟩) (fun _ => ⟨_, rfl⟩)

/-- C2: every variant returns after at most its configured maximum number
of attempts (3 for the primary `geminiService.ts` variant and `part_001`,
5 for the `gemini-3-flash-preview` variant), and once the attempt counter
reaches the cap no retry occurs (a run entered at attempt 3 makes exactly
one attempt). -/
theorem claim_C2_attempts_bounded (envM envP : EnvMain) (jitter : Nat → Rat)
    (envV : Nat → Except JsError JValue) :
    (analyzePhotoMain envM).2.2 ≤ 3 ∧
    (analyzePhotoP1 envP).2.2 ≤ 3 ∧
    (analyzePhotoV3 jitter envV).2.2 ≤ 5 ∧
    (runClient cfgMain (attemptMain envM) 3).2.2 = 1 ∧
    (runClient cfgP1 (attemptP1 envP) 3).2.2 = 1 ∧
    (runClient (cfgV3 jitter) envV 5).2.2 = 1 := by
  refine ⟨?_, ?_, ?_, ?_, ?_, ?_⟩
  · exact runClientGo_attempts_le cfgMain (attemptMain envM) 2 1
  · exact runClientGo_attempts_le cfgP1 (attemptP1 envP) 2 1
  · exact runClientGo_attempts_le (cfgV3 jitter) envV 4 1
  · exact runClientGo_no_retry_at_cap cfgMain (attemptMain envM) 0 3 (Nat.le_refl 3)
  · exact runClientGo_no_retry_at_cap cfgP1 (attemptP1 envP) 0 3 (Nat.le_refl 3)
  · exact runClientGo_no_retry_at_cap (cfgV3 jitter) envV 0 5 (Nat.le_refl 5)

/-- C6 counterexample: on the parsed reply `{"rating": "five"}` the primary
`geminiService.ts` variant (lines 68–80, `result.rating ?? 0`) propagates
the non-numeric rating unchanged into the produced `PhotoAnalysis` instead
of coercing it to 0, refuting the claim as stated for that cited variant. -/
theorem claim_C6_counterexample :
    (analyzePhotoMain envNonNumericRating).1.rating = .jstr "five" ∧
    JValue.jstr "five" ≠ JValue.jnum 0 ∧
    (JValue.jstr "five").isNumber = false := by
  refine ⟨rfl, ?_, rfl⟩
  intro h
  cases h

/-- C6 (amended): only the robust variants (`geminiService.ts` lines
160–176 and `part_002`) coerce a non-numeric rating to 0; the primary
variant's `?? 0` replaces only a null/undefined rating and otherwise
passes the parsed value through, and the spread variants (`part_000`,
`part_001`, `gemini-3-flash-preview`) pass the parsed rating through
unconditionally. -/
theorem claim_C6_rating_coercion_by_variant (data : JValue) :
    ((data.get "rating").isNumber = false →
      (mkAnalysisRobust data).rating = .jnum 0) ∧
    (mkAnalysisMain data).rating =
      (if (data.get "rating").isNullish then .jnum 0 else data.get "rating") ∧
    (mkAnalysisSpread data).rating = data.get "rating" := by
  refine ⟨?_, rfl, rfl⟩
  intro hnum
  simp [mkAnalysisRobust, hnum]

/-- Witness for C6 (amended) at the reply `{"rating": "five"}`. -/
theorem claim_C6_rating_coercion_by_variant_witness :
    (mkAnalysisRobust (JValue.jobj [("rating", JValue.jstr "five")])).rating
        = .jnum 0 ∧
    (mkAnalysisMain (JValue.jobj [("rating", JValue.jstr "five")])).rating
        = .jstr "five" ∧
    (mkAnalysisSpread (JValue.jobj [("rating", JValue.jstr "five")])).rating
        = .jstr "five" :=
  ⟨(claim_C6_rating_coercion_by_variant
      (JValue.jobj [("rating", JValue.jstr "five")])).1 rfl,
   (claim_C6_rating_coercion_by_variant
      (JValue.jobj [("rating", JValue.jstr "five")])).2.1,
   (claim_C6_rating_coercion_by_variant
      (JValue.jobj [("rating", JValue.jstr "five")])).2.2⟩

/-- C8 counterexample: with the API credential absent, the primary
`geminiService.ts` variant (the cited lines 38–42 throw the missing-key
error *inside* the `try`, whose `catch` retries unconditionally) performs
all 3 attempts and two backoff waits (2000 ms then 4000 ms) before
returning the sentinel — refuting “fails immediately … without performing
any retries or backoff waits”. -/
theorem claim_C8_counterexample :
    analyzePhotoMain envNoKey =
      (sentinelMain, [cfgMain.delay 1, cfgMain.delay 2], 3) ∧
    cfgMain.delay 1 = 2000 ∧
    cfgMain.delay 2 = 4000 ∧
    ([cfgMain.delay 1, cfgMain.delay 2] : List Rat) ≠ [] ∧
    (3 : Nat) ≠ 1 := by
  refine ⟨rfl, by simp [cfgMain], by norm_num [cfgMain], by simp, by decide⟩

/-- C8 (amended): with the credential absent, `part_000` (key checked
before the `try`) returns its missing-key sentinel immediately with zero
attempts and no waits; `part_001` throws inside the `try` but treats the
missing-key error as non-retryable, returning the sentinel after a single
attempt with no waits; the primary `geminiService.ts` variant retries the
missing-key error like any other failure, making all 3 attempts with
backoff waits before returning the sentinel. -/
theorem claim_C8_missing_key_behavior
    (call callM callP : Nat → Except JsError JValue) :
    analyzePhotoP0 { apiKeyPresent := false, call := call } =
      (missingKeySentinelP0, [], 0) ∧
    analyzePhotoP1 { apiKeyPresent := false, call := callP } =
      (sentinelP1, [], 1) ∧
    analyzePhotoMain { apiKeyPresent := false, call := callM } =
      (sentinelMain, [cfgMain.delay 1, cfgMain.delay 2], 3) := by
  refine ⟨rfl, rfl, rfl⟩

/-- C7: for every run of the cited variants, the wait before the retry of
attempt `n` is `1000 · 2^n` ms (primary variant: its `2000 · n` formula
coincides with `1000 · 2^n` on every attempt that can trigger a retry,
namely `n ∈ {1, 2}`) resp. `1000 · 2^n` plus that retry's random jitter
(5-attempt variant), for every retried attempt up to the configured cap. -/
theorem claim_C7_exponential_backoff (envM envP : EnvMain)
    (jitter : Nat → Rat) (envV : Nat → Except JsError JValue) :
    (∀ w ∈ (analyzePhotoMain envM).2.1,
      ∃ n, 1 ≤ n ∧ n < 3 ∧ w = 1000 * 2 ^ n) ∧
    (∀ w ∈ (analyzePhotoP1 envP).2.1,
      ∃ n, 1 ≤ n ∧ n < 3 ∧ w = 1000 * 2 ^ n) ∧
    (∀ w ∈ (analyzePhotoV3 jitter envV).2.1,
      ∃ n, 1 ≤ n ∧ n < 5 ∧ w = 1000 * 2 ^ n + jitter n) := by
  have key : ∀ (cfg : ClientConfig) (env : Nat → Except JsError JValue)
      (w : Rat), w ∈ (runClient cfg env 1).2.1 →
      ∃ i, i + 2 ≤ cfg.maxAttempts ∧ w = cfg.delay (1 + i) := by
    intro cfg env w hw
    rw [runClient, runClientGo_waits_eq] at hw
    obtain ⟨i, hi, hwi⟩ := List.mem_map.mp hw
    have hile := List.mem_range.mp hi
    have hatt := runClientGo_attempts_le cfg env (cfg.maxAttempts - 1) 1
    exact ⟨i, by omega, hwi.symm⟩
  refine ⟨?_, ?_, ?_⟩
  · intro w hw
    obtain ⟨i, hi, hwi⟩ := key cfgMain (attemptMain envM) w hw
    have hi3 : i + 2 ≤ 3 := hi
    refine ⟨1 + i, by omega, by omega, ?_⟩
    subst hwi
    have hle : i ≤ 1 := by omega
    interval_cases i <;> norm_num [cfgMain]
  · intro w hw
    obtain ⟨i, hi, hwi⟩ := key cfgP1 (attemptP1 envP) w hw
    have hi3 : i + 2 ≤ 3 := hi
    refine ⟨1 + i, by omega, by omega, ?_⟩
    subst hwi
    have hle : i ≤ 1 := by omega
    interval_cases i <;> norm_num [cfgP1]
  · intro w hw
    obtain ⟨i, hi, hwi⟩ := key (cfgV3 jitter) envV w hw
    have hi5 : i + 2 ≤ 5 := hi
    refine ⟨1 + i, by omega, by omega, ?_⟩
    subst hwi
    simp only [cfgV3]
    ring

/-- Witness for C7: in the all-rate-limited run the first wait is the
configured delay of attempt 1, and the theorem exhibits it as `1000 · 2^1`. -/
theorem claim_C7_exponential_backoff_witness :
    cfgMain.delay 1 ∈ (analyzePhotoMain envRateLimited).2.1 ∧
    ∃ n, 1 ≤ n ∧ n < 3 ∧ cfgMain.delay 1 = 1000 * 2 ^ n :=
  ⟨List.mem_cons_self _ _,
   (claim_C7_exponential_backoff envRateLimited envRateLimited
      (fun _ => 0) (fun _ => Except.error { status := some 429, message := "" })).1
     (cfgMain.delay 1) (List.mem_cons_self _ _)⟩

/-- A dimension bounded by `1024 / x` scales `x` to at most 1024. -/
theorem mul_le_of_le_div_bound {x s : Rat} (hx : 0 < x) (hs : s ≤ 1024 / x) :
    x * s ≤ 1024 := by
  rw [mul_comm]
  exact (le_div_iff₀ hx).mp hs

/-- C3: for every input image with `width ≥ 1` and `height ≥ 1` and any
orientation code, each `sanitizeAndCompress` variant emits canvas
dimensions whose long edge is at most 1024 px. -/
theorem claim_C3_long_edge_le_1024 (w h : Rat) (orientation : Int)
    (hw : 1 ≤ w) (hh : 1 ≤ h) :
    longEdge (sanitizeDimsMain w h orientation) ≤ 1024 ∧
    longEdge (sanitizeDimsV21 w h) ≤ 1024 ∧
    longEdge (sanitizeDimsP3 w h) ≤ 1024 := by
  have hw0 : (0 : Rat) < w := lt_of_lt_of_le one_pos hw
  have hh0 : (0 : Rat) < h := lt_of_lt_of_le one_pos hh
  refine ⟨?_, ?_, ?_⟩
  · have A1 : w * min (min (1024 / w) (1024 / h)) 1 ≤ 1024 :=
      mul_le_of_le_div_bound hw0 (le_trans (min_le_left _ _) (min_le_left _ _))
    have A2 : h * min (min (1024 / w) (1024 / h)) 1 ≤ 1024 :=
      mul_le_of_le_div_bound hh0 (le_trans (min_le_left _ _) (min_le_right _ _))
    have B1 : w * min (min (1024 / h) (1024 / w)) 1 ≤ 1024 :=
      mul_le_of_le_div_bound hw0 (le_trans (min_le_left _ _) (min_le_right _ _))
    have B2 : h * min (min (1024 / h) (1024 / w)) 1 ≤ 1024 :=
      mul_le_of_le_div_bound hh0 (le_trans (min_le_left _ _) (min_le_left _ _))
    simp only [sanitizeDimsMain, longEdge]
    split_ifs <;>
      first
        | exact max_le A1 A2
        | exact max_le A2 A1
        | exact max_le B1 B2
        | exact max_le B2 B1
  · have hM : (0 : Rat) < max w h := lt_of_lt_of_le hw0 (le_max_left _ _)
    have key : ∀ x : Rat, 0 < x → x ≤ max w h → x * (1024 / max w h) ≤ 1024 := by
      intro x hx hxM
      have h1 : x * (1024 / max w h) ≤ max w h * (1024 / max w h) :=
        mul_le_mul_of_nonneg_right hxM (by positivity)
      have h2 : max w h * (1024 / max w h) = 1024 := by
        rw [mul_comm]
        exact div_mul_cancel₀ 1024 (ne_of_gt hM)
      rw [h2] at h1
      exact h1
    exact max_le (key w hw0 (le_max_left _ _)) (key h hh0 (le_max_right _ _))
  · simp only [sanitizeDimsP3, longEdge]
    split_ifs with hwh hw1024 hh1024
    · refine max_le le_rfl ?_
      have h1 : h * (1024 / w) ≤ w * (1024 / w) :=
        mul_le_mul_of_nonneg_right (le_of_lt hwh) (by positivity)
      have h2 : w * (1024 / w) = 1024 := by
        rw [mul_comm]
        exact div_mul_cancel₀ 1024 (ne_of_gt hw0)
      rw [h2] at h1
      exact h1
    · exact max_le (le_of_not_lt hw1024)
        (le_trans (le_of_lt hwh) (le_of_not_lt hw1024))
    · refine max_le ?_ le_rfl
      have hwle : w ≤ h := le_of_not_lt hwh
      have h1 : w * (1024 / h) ≤ h * (1024 / h) :=
        mul_le_mul_of_nonneg_right hwle (by positivity)
      have h2 : h * (1024 / h) = 1024 := by
        rw [mul_comm]
        exact div_mul_cancel₀ 1024 (ne_of_gt hh0)
      rw [h2] at h1
      exact h1
    · exact max_le (le_trans (le_of_not_lt hwh) (le_of_not_lt hh1024))
        (le_of_not_lt hh1024)

/-- Witness for C3 at a 2000 × 1500 image with orientation 6. -/
theorem claim_C3_long_edge_le_1024_witness :
    (1 : Rat) ≤ 2000 ∧ (1 : Rat) ≤ 1500 ∧
    (longEdge (sanitizeDimsMain 2000 1500 6) ≤ 1024 ∧
      longEdge (sanitizeDimsV21 2000 1500) ≤ 1024 ∧
      longEdge (sanitizeDimsP3 2000 1500) ≤ 1024) :=
  ⟨by norm_num, by norm_num,
   claim_C3_long_edge_le_1024 2000 1500 6 (by norm_num) (by norm_num)⟩

/-- C4: the `xmp:Rating` value `generateXMP` writes for any photo equals
the rating the UI displays (`photo.analysis?.rating || 0`), and a manual
override through `onRate` propagates: after `ratePhoto`, the displayed
rating and the exported `xmp:Rating` both equal the new rating. -/
theorem claim_C4_export_rating_matches_display (p q : PhotoMission) (r : Int)
    (hq : q.analysis.isSome) :
    (xmpAttributes p).lookup "xmp:Rating" =
      some (toString (displayedRating p)) ∧
    displayedRating (ratePhoto q.id r q) = r ∧
    (xmpAttributes (ratePhoto q.id r q)).lookup "xmp:Rating" =
      some (toString r) := by
  obtain ⟨a, ha⟩ := Option.isSome_iff_exists.mp hq
  refine ⟨?_, ?_, ?_⟩
  · cases hpa : p.analysis with
    | none => simp [xmpAttributes, displayedRating, hpa, List.lookup]
    | some b =>
      simp [xmpAttributes, displayedRating, hpa, List.lookup, jsOrInt]
      split_ifs with h0
      · rw [h0]
      · rfl
  · simp [ratePhoto, ha, displayedRating, jsOrInt]
    intro h0
    exact h0.symm
  · simp [ratePhoto, ha, xmpAttributes, List.lookup]

/-- Witness for C4 at a completed photo re-rated to 2 stars. -/
theorem claim_C4_export_rating_matches_display_witness :
    (xmpAttributes samplePhoto).lookup "xmp:Rating" =
      some (toString (displayedRating samplePhoto)) ∧
    displayedRating (ratePhoto samplePhoto.id 2 samplePhoto) = 2 ∧
    (xmpAttributes (ratePhoto samplePhoto.id 2 samplePhoto)).lookup "xmp:Rating" =
      some (toString (2 : Int)) :=
  claim_C4_export_rating_matches_display samplePhoto samplePhoto 2 rfl

/-- When every preview strategy fails, the waterfall yields nothing. -/
theorem previewWaterfall_eq_none (env : ExtractEnv)
    (h : allPreviewStrategiesFail env) : previewWaterfall env = none := by
  obtain ⟨h1, h2, h3⟩ := h
  unfold previewWaterfall
  rcases h1 with h1 | h1 <;> rcases h2 with h2 | h2 <;> simp [h1, h2, h3]

/-- C5: for any file on which every preview strategy fails, both extraction
variants return normally with a null/absent preview (and orientation reset
to 1 in the App variant); if metadata parsing also throws, the returned
metadata is the placeholder record. The embedding is a total function: the
inner catches absorb every failure, so extraction never throws. -/
theorem claim_C5_extraction_defaults (env : ExtractEnv)
    (hprev : allPreviewStrategiesFail env) :
    (extractMetadata env).url = none ∧
    (extractMetadata env).blob = none ∧
    (extractMetadata env).orientation = 1 ∧
    (extractDataP3 env).1 = none ∧
    (env.parse = .error () →
      (extractMetadata env).meta = placeholderMeta env.now ∧
      (extractDataP3 env).2 = placeholderMeta env.now) := by
  have hw := previewWaterfall_eq_none env hprev
  refine ⟨?_, ?_, ?_, ?_, ?_⟩
  · simp [extractMetadata, hw]
  · simp [extractMetadata, hw]
  · simp [extractMetadata, hw]
  · simp [extractDataP3, hw]
  · intro hp
    constructor
    · simp [extractMetadata, hw, hp]
    · simp [extractDataP3, hp]

/-- Witness for C5 at a file whose metadata parse throws, whose preview and
thumbnail reads fail, and whose bytes end right after an `FF D8` pair. -/
theorem claim_C5_extraction_defaults_witness :
    (extractMetadata envExtractFail).url = none ∧
    (extractMetadata envExtractFail).blob = none ∧
    (extractMetadata envExtractFail).orientation = 1 ∧
    (extractDataP3 envExtractFail).1 = none ∧
    ((extractMetadata envExtractFail).meta =
        placeholderMeta envExtractFail.now ∧
      (extractDataP3 envExtractFail).2 = placeholderMeta envExtractFail.now) :=
  have h := claim_C5_extraction_defaults envExtractFail
    ⟨Or.inl rfl, Or.inr rfl, rfl⟩
  ⟨h.1, h.2.1, h.2.2.1, h.2.2.2.1, h.2.2.2.2 rfl⟩

/-- C9: the completion update sets `selected` to exactly `rating ≥ 3` and
stores the analysis; a manual re-rate of a photo that has an analysis sets
`selected` to exactly `rating ≥ 3` and stores the new rating; a manual
rate of a photo without an analysis leaves the photo entirely unchanged. -/
theorem claim_C9_selected_tracks_rating (id url : String) (a : PhotoAnalysis)
    (r : Int) (p q p0 : PhotoMission) (hp : p.id = id) (hq : q.id = id)
    (hqa : q.analysis.isSome) (hp0 : p0.analysis = none) :
    (completePhoto id a url p).selected = decide (a.rating ≥ 3) ∧
    (completePhoto id a url p).analysis = some a ∧
    (ratePhoto id r q).selected = decide (r ≥ 3) ∧
    (ratePhoto id r q).analysis.map PhotoAnalysis.rating = some r ∧
    ratePhoto id r p0 = p0 := by
  obtain ⟨b, hb⟩ := Option.isSome_iff_exists.mp hqa
  refine ⟨?_, ?_, ?_, ?_, ?_⟩
  · simp [completePhoto, hp, jsOrInt_zero_ge_three]
  · simp [completePhoto, hp]
  · simp [ratePhoto, hq, hb]
  · simp [ratePhoto, hq, hb]
  · simp [ratePhoto, hp0]

/-- Witness for C9 at a completed photo re-rated to 5 stars and a pending
photo without analysis. -/
theorem claim_C9_selected_tracks_rating_witness :
    (completePhoto "abc123" sampleAnalysis "blob:2" samplePhoto).selected =
      decide (sampleAnalysis.rating ≥ 3) ∧
    (completePhoto "abc123" sampleAnalysis "blob:2" samplePhoto).analysis =
      some sampleAnalysis ∧
    (ratePhoto "abc123" 5 samplePhoto).selected = decide ((5 : Int) ≥ 3) ∧
    (ratePhoto "abc123" 5 samplePhoto).analysis.map PhotoAnalysis.rating =
      some 5 ∧
    ratePhoto "abc123" 5 pendingPhoto = pendingPhoto :=
  claim_C9_selected_tracks_rating "abc123" "blob:2" sampleAnalysis 5
    samplePhoto samplePhoto pendingPhoto rfl rfl rfl rfl

/-- C10: the `crs:Temperature` value written to the sidecar equals
`round(50 · temp + 5000)` — an affine re-encoding of the model's
white-balance offset — and for a photo without an analysis (temp defaulted
to 0) the exported value is exactly `5000`. -/
theorem claim_C10_temperature_affine (p : PhotoMission) :
    (xmpAttributes p).lookup "crs:Temperature" =
      some (toString (jsRound (50 * tempOf p + 5000))) ∧
    (p.analysis = none →
      (xmpAttributes p).lookup "crs:Temperature" = some "5000") := by
  constructor
  · cases hpa : p.analysis with
    | none => simp [xmpAttributes, tempOf, hpa, List.lookup]
    | some a =>
      simp [xmpAttributes, tempOf, hpa, List.lookup]
      rw [mul_comm a.temp 50]
  · intro hpa
    simp [xmpAttributes, hpa, List.lookup]
    have h5000 : jsRound (5000 : Rat) = 5000 := by
      rw [jsRound, Int.floor_eq_iff]
      constructor <;> norm_num
    rw [h5000]
    rfl

/-- Witness for C10 at a photo without an analysis. -/
theorem claim_C10_temperature_affine_witness :
    (xmpAttributes pendingPhoto).lookup "crs:Temperature" =
      some (toString (jsRound (50 * tempOf pendingPhoto + 5000))) ∧
    (xmpAttributes pendingPhoto).lookup "crs:Temperature" = some "5000" :=
  ⟨(claim_C10_temperature_affine pendingPhoto).1,
   (claim_C10_temperature_affine pendingPhoto).2 rfl⟩

end NovusCura
